import Mathlib

/-!
Shallow embedding of `src/core.rs` of the `rocket_oauth2` crate: the token
data model (`TokenRequest`, `TokenResponse` with its serde deserialization),
the `Adapter` and `Callback` capabilities, and the `OAuth2` flow engine
(`get_redirect`, `refresh`, and the callback `handle` state machine).

Stateful cookie access (`Cookies::get_private` / `remove` / `add_private` on
the private `rocket_oauth2_state` cookie) is embedded as explicit state
passing over a `CookieJar`, together with a trace of the cookie operations
performed, the `TokenRequest`s passed to `Adapter::exchange_code`, and the
`TokenResponse`s passed to `Callback::callback`, so that observability
properties (which collaborator calls happen on which path) are statable.
-/

namespace RocketOAuth2

/-- Model of `serde_json::Value` (JSON numbers modelled as integers). -/
inductive Json where
  | null : Json
  | bool (b : Bool) : Json
  | num (n : Int) : Json
  | str (s : String) : Json
  | arr (elems : List Json) : Json
  | obj (fields : List (String × Json)) : Json
deriving Repr

/-- Model of `OAuthConfig` (external to core.rs: client credentials and
endpoints, immutable once resolved). -/
structure OAuthConfig where
  client_id : String
  client_secret : String
  auth_uri : String
  token_uri : String
  redirect_uri : String
deriving Repr, DecidableEq

/-- `TokenRequest` from core.rs: the token types which can be exchanged with
the token endpoint. -/
inductive TokenRequest where
  | AuthorizationCode (code : String)
  | RefreshToken (token : String)
deriving Repr, DecidableEq

/-- `TokenResponse` from core.rs: the server's response to a successful token
exchange (RFC 6749 §5.1).  `extras` models the `#[serde(flatten)]`
`HashMap<String, JsonValue>` as an association list. -/
structure TokenResponse where
  access_token : String
  token_type : String
  expires_in : Option Int
  refresh_token : Option String
  scope : Option String
  extras : List (String × Json)

/-- The reserved top-level field names of `TokenResponse`: everything else
goes into `extras` via `#[serde(flatten)]`. -/
def TokenResponse.namedFields : List String :=
  ["access_token", "token_type", "expires_in", "refresh_token", "scope"]

/-- serde: a required `String` field — present and a JSON string, else error. -/
def decodeReqString : Option Json → Except Unit String
  | some (Json.str s) => .ok s
  | _ => .error ()

/-- serde: an `Option<String>` field — absent or `null` gives `none`, a JSON
string gives `some`, anything else is an error. -/
def decodeOptString : Option Json → Except Unit (Option String)
  | none => .ok none
  | some Json.null => .ok none
  | some (Json.str s) => .ok (some s)
  | _ => .error ()

/-- serde: an `Option<i32>` field — absent or `null` gives `none`, a JSON
integer in `i32` range gives `some`, anything else is an error. -/
def decodeOptI32 : Option Json → Except Unit (Option Int)
  | none => .ok none
  | some Json.null => .ok none
  | some (Json.num n) =>
      if -(2 ^ 31) ≤ n ∧ n < 2 ^ 31 then .ok (some n) else .error ()
  | _ => .error ()

/-- First-match association lookup among the top-level fields of a JSON
object. -/
def lookupField (fields : List (String × Json)) (key : String) : Option Json :=
  match fields with
  | [] => none
  | (k, v) :: rest => if k = key then some v else lookupField rest key

/-- The serde `Deserialize` of `TokenResponse` applied to the top-level
fields of a provider token-endpoint JSON object: the five named fields are
decoded by name, and every remaining field is collected (key and value
unchanged) into `extras` by the `#[serde(flatten)]` map. -/
def TokenResponse.deserialize (fields : List (String × Json)) :
    Except Unit TokenResponse := do
  let access_token ← decodeReqString (lookupField fields "access_token")
  let token_type ← decodeReqString (lookupField fields "token_type")
  let expires_in ← decodeOptI32 (lookupField fields "expires_in")
  let refresh_token ← decodeOptString (lookupField fields "refresh_token")
  let scope ← decodeOptString (lookupField fields "scope")
  .ok { access_token := access_token
        token_type := token_type
        expires_in := expires_in
        refresh_token := refresh_token
        scope := scope
        extras := fields.filter (fun kv => ¬ kv.1 ∈ TokenResponse.namedFields) }

/-- The `Adapter` trait: per-provider strategy, deterministic for a given
request in this embedding.  `ε` is the associated `Error` type. -/
structure Adapter (ε : Type) where
  authorization_uri : OAuthConfig → List String → Except ε (String × String)
  exchange_code : OAuthConfig → TokenRequest → Except ε TokenResponse

/-- `STATE_COOKIE_NAME` from core.rs. -/
def STATE_COOKIE_NAME : String := "rocket_oauth2_state"

/-- The per-user-agent private cookie jar, restricted to the single cookie
the engine ever touches: the `rocket_oauth2_state` cookie (its value, or
`none` when the cookie is absent). -/
structure CookieJar where
  stateCookie : Option String
deriving Repr, DecidableEq

/-- Trace entries for the cookie operations the engine performs. -/
inductive CookieOp where
  | getPrivate (name : String) (result : Option String)
  | removeCookie (name : String)
  | addPrivate (name : String) (value : String)
deriving Repr, DecidableEq

/-- The `CallbackQuery` form from `OAuth2::handle`: `code` and `state`
required, `scope` optional. -/
structure CallbackQuery where
  code : String
  state : String
  scope : Option String
deriving Repr, DecidableEq

/-- The loop of Rocket 0.4's derived `FromForm` for `CallbackQuery`: items
are processed in order, a recognized key overwrites its accumulator, an
unrecognized key is an error only under `strict` (except `_method`); at the
end a still-missing required field is an error and a missing `scope`
defaults to `none`. -/
def CallbackQuery.from_form_loop (items : List (String × String)) (strict : Bool)
    (code state scope : Option String) : Except Unit CallbackQuery :=
  match items with
  | [] =>
    match code, state with
    | some c, some s => .ok { code := c, state := s, scope := scope }
    | _, _ => .error ()
  | (k, v) :: rest =>
    if k = "code" then CallbackQuery.from_form_loop rest strict (some v) state scope
    else if k = "state" then CallbackQuery.from_form_loop rest strict code (some v) scope
    else if k = "scope" then CallbackQuery.from_form_loop rest strict code state (some v)
    else if strict && k ≠ "_method" then .error ()
    else CallbackQuery.from_form_loop rest strict code state scope

/-- `CallbackQuery::from_form` over already URL-decoded form items. -/
def CallbackQuery.from_form (items : List (String × String)) (strict : Bool) :
    Except Unit CallbackQuery :=
  CallbackQuery.from_form_loop items strict none none none

/-- The `OAuth2` engine: one adapter, one callback (modelled as the function
the blanket `impl Callback for F` wraps, `ρ` being its `Responder` type), a
resolved configuration, and the default login scopes. -/
structure OAuth2 (ε ρ : Type) where
  adapter : Adapter ε
  callback : TokenResponse → ρ
  config : OAuthConfig
  login_scopes : List String

/-- `rocket::response::Redirect::to(uri)`. -/
structure Redirect where
  uri : String
deriving Repr, DecidableEq

/-- `OAuth2::get_redirect`: ask the adapter for an authorization URI and
state, persist the state in the private state cookie, return the redirect;
on adapter failure propagate the error unchanged (the `?` operator) without
touching the jar.  Returns (result, jar after, cookie-op trace). -/
def OAuth2.get_redirect (o : OAuth2 ε ρ) (jar : CookieJar) (scopes : List String) :
    Except ε Redirect × CookieJar × List CookieOp :=
  match o.adapter.authorization_uri o.config scopes with
  | .error e => (.error e, jar, [])
  | .ok (uri, state) =>
      (.ok { uri := uri }, { stateCookie := some state },
        [CookieOp.addPrivate STATE_COOKIE_NAME state])

/-- `OAuth2::refresh`: wrap the refresh token string in
`TokenRequest::RefreshToken` and delegate to `Adapter::exchange_code`.
The Rust method takes no `Cookies` argument at all. -/
def OAuth2.refresh (o : OAuth2 ε ρ) (refresh_token : String) :
    Except ε TokenResponse :=
  o.adapter.exchange_code o.config (TokenRequest.RefreshToken refresh_token)

/-- `OAuth2::refresh` as it acts on the per-user-agent cookie jar of the
request context it runs in: the Rust method takes no `Cookies` argument, so
the jar is left untouched and no cookie operation is performed. -/
def OAuth2.refreshWithJar (o : OAuth2 ε ρ) (refresh_token : String)
    (jar : CookieJar) : Except ε TokenResponse × CookieJar × List CookieOp :=
  (o.refresh refresh_token, jar, [])

/-- The outcome of `OAuth2::handle`: either the responder produced by the
application callback, or `handler::Outcome::failure(status)`. -/
inductive HandleOutcome (ρ : Type) where
  | success (responder : ρ)
  | failure (status : Nat)

/-- Result of one `OAuth2::handle` invocation: the HTTP outcome, the cookie
jar afterwards, and the traces of cookie operations, adapter exchange calls
and callback invocations (in order). -/
structure HandleResult (ε ρ : Type) where
  outcome : HandleOutcome ρ
  jar : CookieJar
  cookieOps : List CookieOp
  exchangeCalls : List TokenRequest
  callbackCalls : List TokenResponse

/-- `Status::BadRequest` (the only failure status `handle` uses). -/
def badRequestStatus : Nat := 400

/-- The provider-quirk fallback inside `OAuth2::handle`: if the token
response carries no `scope`, use the callback query's `scope`. -/
def scope_fallback (token : TokenResponse) (queryScope : Option String) :
    TokenResponse :=
  if token.scope.isNone then { token with scope := queryScope } else token

/-- `OAuth2::handle`, the callback state machine: parse the query (absent or
malformed query ⇒ 400), read the private state cookie and compare it with
the presented `state` (absent or mismatched ⇒ 400; on match the cookie is
removed), have the adapter exchange the code (failure ⇒ 400), apply the
scope fallback, and run the application callback on the finalized token. -/
def OAuth2.handle (o : OAuth2 ε ρ) (query : Option (List (String × String)))
    (jar : CookieJar) : HandleResult ε ρ :=
  match query with
  | none =>
      { outcome := .failure badRequestStatus, jar := jar, cookieOps := [],
        exchangeCalls := [], callbackCalls := [] }
  | some items =>
    match CallbackQuery.from_form items false with
    | .error _ =>
        { outcome := .failure badRequestStatus, jar := jar, cookieOps := [],
          exchangeCalls := [], callbackCalls := [] }
    | .ok params =>
      match jar.stateCookie with
      | some v =>
        if v = params.state then
          match o.adapter.exchange_code o.config
              (TokenRequest.AuthorizationCode params.code) with
          | .ok token =>
              let token := scope_fallback token params.scope
              { outcome := .success (o.callback token),
                jar := { stateCookie := none },
                cookieOps := [CookieOp.getPrivate STATE_COOKIE_NAME (some v),
                  CookieOp.removeCookie STATE_COOKIE_NAME],
                exchangeCalls := [TokenRequest.AuthorizationCode params.code],
                callbackCalls := [token] }
          | .error _ =>
              { outcome := .failure badRequestStatus,
                jar := { stateCookie := none },
                cookieOps := [CookieOp.getPrivate STATE_COOKIE_NAME (some v),
                  CookieOp.removeCookie STATE_COOKIE_NAME],
                exchangeCalls := [TokenRequest.AuthorizationCode params.code],
                callbackCalls := [] }
        else
          { outcome := .failure badRequestStatus, jar := jar,
            cookieOps := [CookieOp.getPrivate STATE_COOKIE_NAME (some v)],
            exchangeCalls := [], callbackCalls := [] }
      | none =>
          { outcome := .failure badRequestStatus, jar := jar,
            cookieOps := [CookieOp.getPrivate STATE_COOKIE_NAME none],
            exchangeCalls := [], callbackCalls := [] }

/-! ### Concrete instances used by the witnesses -/

/-- A sample token response with no `scope`. -/
def sampleToken : TokenResponse :=
  { access_token := "tok", token_type := "bearer", expires_in := none,
    refresh_token := none, scope := none, extras := [] }

/-- A sample resolved configuration. -/
def sampleConfig : OAuthConfig :=
  { client_id := "id", client_secret := "secret",
    auth_uri := "https://provider/auth", token_uri := "https://provider/token",
    redirect_uri := "https://app/callback" }

/-- An adapter whose operations always succeed. -/
def okAdapter : Adapter Unit :=
  { authorization_uri := fun _ _ =>
      .ok ("https://provider/auth?response_type=code&state=abc123", "abc123"),
    exchange_code := fun _ _ => .ok sampleToken }

/-- An adapter whose operations always fail. -/
def errAdapter : Adapter Unit :=
  { authorization_uri := fun _ _ => .error (),
    exchange_code := fun _ _ => .error () }

/-- An engine over `okAdapter` with a trivial callback. -/
def okEngine : OAuth2 Unit Unit :=
  { adapter := okAdapter, callback := fun _ => (), config := sampleConfig,
    login_scopes := ["read", "write"] }

/-- An engine over `errAdapter` with a trivial callback. -/
def errEngine : OAuth2 Unit Unit :=
  { adapter := errAdapter, callback := fun _ => (), config := sampleConfig,
    login_scopes := ["read", "write"] }

/-! ### Path characterizations of `OAuth2.handle` -/

theorem handle_no_query {ε ρ : Type} (o : OAuth2 ε ρ) (jar : CookieJar) :
    o.handle none jar =
      { outcome := .failure badRequestStatus, jar := jar, cookieOps := [],
        exchangeCalls := [], callbackCalls := [] } := rfl

theorem handle_parse_error {ε ρ : Type} (o : OAuth2 ε ρ) (jar : CookieJar)
    (items : List (String × String))
    (hp : CallbackQuery.from_form items false = .error ()) :
    o.handle (some items) jar =
      { outcome := .failure badRequestStatus, jar := jar, cookieOps := [],
        exchangeCalls := [], callbackCalls := [] } := by
  simp only [OAuth2.handle, hp]

theorem handle_no_cookie {ε ρ : Type} (o : OAuth2 ε ρ)
    (items : List (String × String)) (params : CallbackQuery)
    (hp : CallbackQuery.from_form items false = .ok params) :
    o.handle (some items) ⟨none⟩ =
      { outcome := .failure badRequestStatus, jar := ⟨none⟩,
        cookieOps := [CookieOp.getPrivate STATE_COOKIE_NAME none],
        exchangeCalls := [], callbackCalls := [] } := by
  simp only [OAuth2.handle, hp]

theorem handle_state_mismatch {ε ρ : Type} (o : OAuth2 ε ρ)
    (items : List (String × String)) (params : CallbackQuery) (v : String)
    (hp : CallbackQuery.from_form items false = .ok params)
    (hv : v ≠ params.state) :
    o.handle (some items) ⟨some v⟩ =
      { outcome := .failure badRequestStatus, jar := ⟨some v⟩,
        cookieOps := [CookieOp.getPrivate STATE_COOKIE_NAME (some v)],
        exchangeCalls := [], callbackCalls := [] } := by
  simp only [OAuth2.handle, hp, if_neg hv]

theorem handle_exchange_ok {ε ρ : Type} (o : OAuth2 ε ρ)
    (items : List (String × String)) (params : CallbackQuery)
    (t : TokenResponse)
    (hp : CallbackQuery.from_form items false = .ok params)
    (hx : o.adapter.exchange_code o.config
        (TokenRequest.AuthorizationCode params.code) = .ok t) :
    o.handle (some items) ⟨some params.state⟩ =
      { outcome := .success (o.callback (scope_fallback t params.scope)),
        jar := ⟨none⟩,
        cookieOps := [CookieOp.getPrivate STATE_COOKIE_NAME (some params.state),
          CookieOp.removeCookie STATE_COOKIE_NAME],
        exchangeCalls := [TokenRequest.AuthorizationCode params.code],
        callbackCalls := [scope_fallback t params.scope] } := by
  simp only [OAuth2.handle, hp, if_pos rfl, hx, if_true]

theorem handle_exchange_error {ε ρ : Type} (o : OAuth2 ε ρ)
    (items : List (String × String)) (params : CallbackQuery) (e : ε)
    (hp : CallbackQuery.from_form items false = .ok params)
    (hx : o.adapter.exchange_code o.config
        (TokenRequest.AuthorizationCode params.code) = .error e) :
    o.handle (some items) ⟨some params.state⟩ =
      { outcome := .failure badRequestStatus, jar := ⟨none⟩,
        cookieOps := [CookieOp.getPrivate STATE_COOKIE_NAME (some params.state),
          CookieOp.removeCookie STATE_COOKIE_NAME],
        exchangeCalls := [TokenRequest.AuthorizationCode params.code],
        callbackCalls := [] } := by
  simp only [OAuth2.handle, hp, if_pos rfl, hx, if_true]

/-! ### `from_form` missing-field lemmas -/

theorem from_form_loop_no_code (items : List (String × String)) (strict : Bool)
    (st sc : Option String) (h : "code" ∉ items.map Prod.fst) :
    CallbackQuery.from_form_loop items strict none st sc = .error () := by
  induction items generalizing st sc with
  | nil => rfl
  | cons kv rest ih =>
    rcases kv with ⟨k, v⟩
    simp only [List.map_cons, List.mem_cons, not_or] at h
    obtain ⟨hk, hrest⟩ := h
    unfold CallbackQuery.from_form_loop
    rw [if_neg (fun hh => hk hh.symm)]
    split_ifs <;> first | rfl | exact ih _ _ hrest

theorem from_form_loop_no_state (items : List (String × String)) (strict : Bool)
    (cd sc : Option String) (h : "state" ∉ items.map Prod.fst) :
    CallbackQuery.from_form_loop items strict cd none sc = .error () := by
  induction items generalizing cd sc with
  | nil => cases cd <;> rfl
  | cons kv rest ih =>
    rcases kv with ⟨k, v⟩
    simp only [List.map_cons, List.mem_cons, not_or] at h
    obtain ⟨hk, hrest⟩ := h
    unfold CallbackQuery.from_form_loop
    rw [if_neg (show ¬ k = "state" from fun hh => hk hh.symm)]
    split_ifs <;> first | rfl | exact ih _ _ hrest

theorem from_form_missing_required (items : List (String × String))
    (strict : Bool)
    (h : "code" ∉ items.map Prod.fst ∨ "state" ∉ items.map Prod.fst) :
    CallbackQuery.from_form items strict = .error () := by
  rcases h with h | h
  · exact from_form_loop_no_code items strict none none h
  · exact from_form_loop_no_state items strict none none h

/-- A successful `TokenResponse.deserialize` puts exactly the non-named
fields into `extras`, keys and values unchanged. -/
theorem deserialize_extras (fields : List (String × Json)) (tr : TokenResponse)
    (h : TokenResponse.deserialize fields = .ok tr) :
    tr.extras
      = fields.filter (fun kv => ¬ kv.1 ∈ TokenResponse.namedFields) := by
  simp only [TokenResponse.deserialize, bind, Except.bind] at h
  repeat' split at h
  all_goals first
    | exact Except.noConfusion h
    | (injection h with h'; rw [← h'])

/-! ### The claims -/

/-- C1: once a state value has been consumed by a validation attempt in the
callback state machine (the callback query parsed, so `ValidateState` ran,
whether it succeeded or failed), replaying the same callback URL against the
resulting cookie jar never satisfies validation again: the second invocation
is rejected with 400, performs no token exchange and no callback
invocation. -/
theorem state_value_never_revalidates {ε ρ : Type} (o : OAuth2 ε ρ)
    (jar : CookieJar) (items : List (String × String)) (params : CallbackQuery)
    (hp : CallbackQuery.from_form items false = .ok params) :
    (o.handle (some items) (o.handle (some items) jar).jar).outcome
        = .failure badRequestStatus
    ∧ (o.handle (some items) (o.handle (some items) jar).jar).exchangeCalls = []
    ∧ (o.handle (some items) (o.handle (some items) jar).jar).callbackCalls
        = [] := by
  obtain ⟨s⟩ := jar
  cases s with
  | none =>
    have hjar : (o.handle (some items) ⟨none⟩).jar = ⟨none⟩ := by
      rw [handle_no_cookie o items params hp]
    rw [hjar, handle_no_cookie o items params hp]
    exact ⟨rfl, rfl, rfl⟩
  | some v =>
    by_cases hv : v = params.state
    · subst hv
      cases hx : o.adapter.exchange_code o.config
          (TokenRequest.AuthorizationCode params.code) with
      | ok t =>
        have hjar : (o.handle (some items) ⟨some params.state⟩).jar = ⟨none⟩ := by
          rw [handle_exchange_ok o items params t hp hx]
        rw [hjar, handle_no_cookie o items params hp]
        exact ⟨rfl, rfl, rfl⟩
      | error e =>
        have hjar : (o.handle (some items) ⟨some params.state⟩).jar = ⟨none⟩ := by
          rw [handle_exchange_error o items params e hp hx]
        rw [hjar, handle_no_cookie o items params hp]
        exact ⟨rfl, rfl, rfl⟩
    · have hjar : (o.handle (some items) ⟨some v⟩).jar = ⟨some v⟩ := by
        rw [handle_state_mismatch o items params v hp hv]
      rw [hjar, handle_state_mismatch o items params v hp hv]
      exact ⟨rfl, rfl, rfl⟩

/-- Witness for C1: a matching state is consumed by the first callback, and
the replay of the very same callback URL is rejected. -/
theorem state_value_never_revalidates_witness :
    (okEngine.handle (some [("code", "XYZ"), ("state", "abc123")])
        ((okEngine.handle (some [("code", "XYZ"), ("state", "abc123")])
          ⟨some "abc123"⟩).jar)).outcome = .failure badRequestStatus :=
  (state_value_never_revalidates okEngine ⟨some "abc123"⟩
    [("code", "XYZ"), ("state", "abc123")]
    { code := "XYZ", state := "abc123", scope := none } rfl).1

/-- C2: when the presented `state` does not match the stored state value (or
none is stored), the engine rejects with 400 before the token exchange:
`Adapter::exchange_code` is not invoked and neither is the callback. -/
theorem mismatched_state_rejected_before_exchange {ε ρ : Type}
    (o : OAuth2 ε ρ) (jar : CookieJar) (items : List (String × String))
    (params : CallbackQuery)
    (hp : CallbackQuery.from_form items false = .ok params)
    (hne : jar.stateCookie ≠ some params.state) :
    (o.handle (some items) jar).outcome = .failure badRequestStatus
    ∧ (o.handle (some items) jar).exchangeCalls = []
    ∧ (o.handle (some items) jar).callbackCalls = [] := by
  obtain ⟨s⟩ := jar
  cases s with
  | none =>
    rw [handle_no_cookie o items params hp]
    exact ⟨rfl, rfl, rfl⟩
  | some v =>
    have hv : v ≠ params.state := fun hh => hne (congrArg some hh)
    rw [handle_state_mismatch o items params v hp hv]
    exact ⟨rfl, rfl, rfl⟩

/-- Witness for C2: a callback with `state=wrong` makes no exchange call. -/
theorem mismatched_state_rejected_witness :
    (okEngine.handle (some [("code", "XYZ"), ("state", "wrong")])
        ⟨some "abc123"⟩).exchangeCalls = [] :=
  (mismatched_state_rejected_before_exchange okEngine ⟨some "abc123"⟩
    [("code", "XYZ"), ("state", "wrong")]
    { code := "XYZ", state := "wrong", scope := none } rfl (by decide)).2.1

/-- C3: the application callback is invoked exactly once iff the token
exchange succeeded; its call count never exceeds one, and every successful
(`Dispatch`) outcome corresponds to exactly one callback invocation. -/
theorem callback_invoked_once_iff_exchange_ok {ε ρ : Type} (o : OAuth2 ε ρ)
    (query : Option (List (String × String))) (jar : CookieJar) :
    ((o.handle query jar).callbackCalls.length = 1
        ↔ ∃ req t, (o.handle query jar).exchangeCalls = [req]
            ∧ o.adapter.exchange_code o.config req = .ok t)
    ∧ ((o.handle query jar).callbackCalls.length = 1
        ∨ (o.handle query jar).callbackCalls = [])
    ∧ (∀ r, (o.handle query jar).outcome = .success r
        → (o.handle query jar).callbackCalls.length = 1) := by
  obtain ⟨s⟩ := jar
  cases query with
  | none =>
    rw [handle_no_query o ⟨s⟩]
    exact ⟨⟨(fun h => nomatch h), (fun ⟨req, t, hq, _⟩ => nomatch hq)⟩,
      Or.inr rfl, (fun r hr => nomatch hr)⟩
  | some items =>
    cases hf : CallbackQuery.from_form items false with
    | error u =>
      cases u
      rw [handle_parse_error o ⟨s⟩ items hf]
      exact ⟨⟨(fun h => nomatch h), (fun ⟨req, t, hq, _⟩ => nomatch hq)⟩,
        Or.inr rfl, (fun r hr => nomatch hr)⟩
    | ok params =>
      cases s with
      | none =>
        rw [handle_no_cookie o items params hf]
        exact ⟨⟨(fun h => nomatch h), (fun ⟨req, t, hq, _⟩ => nomatch hq)⟩,
          Or.inr rfl, (fun r hr => nomatch hr)⟩
      | some v =>
        by_cases hv : v = params.state
        · subst hv
          cases hx : o.adapter.exchange_code o.config
              (TokenRequest.AuthorizationCode params.code) with
          | ok t =>
            rw [handle_exchange_ok o items params t hf hx]
            exact ⟨⟨fun _ =>
                ⟨TokenRequest.AuthorizationCode params.code, t, rfl, hx⟩,
              fun _ => rfl⟩, Or.inl rfl, fun r hr => rfl⟩
          | error e =>
            rw [handle_exchange_error o items params e hf hx]
            refine ⟨⟨(fun h => nomatch h), ?_⟩, Or.inr rfl,
              (fun r hr => nomatch hr)⟩
            rintro ⟨req, t, hq, hok⟩
            injection hq with h1 h2
            rw [← h1, hx] at hok
            exact Except.noConfusion hok
        · rw [handle_state_mismatch o items params v hf hv]
          exact ⟨⟨(fun h => nomatch h), (fun ⟨req, t, hq, _⟩ => nomatch hq)⟩,
            Or.inr rfl, (fun r hr => nomatch hr)⟩

/-- Witness for C3: on a matching state and a successful exchange, the
callback is invoked exactly once. -/
theorem callback_invoked_once_witness :
    (okEngine.handle (some [("code", "XYZ"), ("state", "abc123")])
        ⟨some "abc123"⟩).callbackCalls.length = 1 :=
  (callback_invoked_once_iff_exchange_ok okEngine
      (some [("code", "XYZ"), ("state", "abc123")]) ⟨some "abc123"⟩).1.mpr
    ⟨TokenRequest.AuthorizationCode "XYZ", sampleToken, rfl, rfl⟩

/-- C4: the token dispatched to the callback is the exchanged token with the
scope fallback applied: when the token response has no `scope`, the
finalized `scope` is the callback query's `scope`; when the token response
has one, it is kept unchanged. -/
theorem scope_fallback_on_dispatch {ε ρ : Type} (o : OAuth2 ε ρ)
    (items : List (String × String)) (params : CallbackQuery)
    (t : TokenResponse)
    (hp : CallbackQuery.from_form items false = .ok params)
    (hx : o.adapter.exchange_code o.config
        (TokenRequest.AuthorizationCode params.code) = .ok t) :
    (o.handle (some items) ⟨some params.state⟩).callbackCalls
        = [scope_fallback t params.scope]
    ∧ (∀ q, t.scope = none → params.scope = some q
        → (scope_fallback t params.scope).scope = some q)
    ∧ (∀ sc, t.scope = some sc
        → (scope_fallback t params.scope).scope = some sc) := by
  refine ⟨?_, ?_, ?_⟩
  · rw [handle_exchange_ok o items params t hp hx]
  · intro q hn hq
    simp [scope_fallback, hn, hq]
  · intro sc hs
    simp [scope_fallback, hs]

/-- Witness for C4: token response without `scope`, query with `scope=read`
⇒ the finalized token's scope is `read`. -/
theorem scope_fallback_witness :
    (scope_fallback sampleToken (some "read")).scope = some "read" :=
  (scope_fallback_on_dispatch okEngine
    [("code", "XYZ"), ("state", "abc123"), ("scope", "read")]
    { code := "XYZ", state := "abc123", scope := some "read" }
    sampleToken rfl rfl).2.1 "read" rfl rfl

/-- C5: a callback request with no query, or whose query lacks the required
`code` or `state` field (whatever the other fields look like), is rejected
with 400 before any state access, exchange call or callback invocation. -/
theorem malformed_query_rejected {ε ρ : Type} (o : OAuth2 ε ρ)
    (jar : CookieJar) :
    (∀ items, ("code" ∉ items.map Prod.fst ∨ "state" ∉ items.map Prod.fst) →
        (o.handle (some items) jar).outcome = .failure badRequestStatus
        ∧ (o.handle (some items) jar).exchangeCalls = []
        ∧ (o.handle (some items) jar).callbackCalls = []
        ∧ (o.handle (some items) jar).jar = jar)
    ∧ ((o.handle none jar).outcome = .failure badRequestStatus
        ∧ (o.handle none jar).exchangeCalls = []
        ∧ (o.handle none jar).callbackCalls = []) := by
  constructor
  · intro items h
    rw [handle_parse_error o jar items
      (from_form_missing_required items false h)]
    exact ⟨rfl, rfl, rfl, rfl⟩
  · rw [handle_no_query o jar]
    exact ⟨rfl, rfl, rfl⟩

/-- Witness for C5: a query carrying only `state` and a well-formed `scope`
(no `code`) is rejected with 400. -/
theorem malformed_query_rejected_witness :
    (okEngine.handle (some [("state", "abc123"), ("scope", "read")])
        ⟨some "abc123"⟩).outcome = .failure badRequestStatus :=
  ((malformed_query_rejected okEngine ⟨some "abc123"⟩).1
    [("state", "abc123"), ("scope", "read")] (Or.inl (by decide))).1

/-- C6: the scope fallback is the only mutation between the adapter
returning the token and the callback receiving it: every token handed to
the callback agrees with the exchanged token on `access_token`,
`token_type`, `expires_in`, `refresh_token` and `extras`, and is either
exactly the exchanged token or (only when its `scope` was absent) the
exchanged token with `scope` replaced by the query's. -/
theorem token_unchanged_except_scope {ε ρ : Type} (o : OAuth2 ε ρ)
    (items : List (String × String)) (params : CallbackQuery)
    (t : TokenResponse)
    (hp : CallbackQuery.from_form items false = .ok params)
    (hx : o.adapter.exchange_code o.config
        (TokenRequest.AuthorizationCode params.code) = .ok t) :
    ∀ tok ∈ (o.handle (some items) ⟨some params.state⟩).callbackCalls,
      tok.access_token = t.access_token ∧ tok.token_type = t.token_type
      ∧ tok.expires_in = t.expires_in ∧ tok.refresh_token = t.refresh_token
      ∧ tok.extras = t.extras
      ∧ (tok = t
          ∨ (t.scope = none ∧ tok = { t with scope := params.scope })) := by
  intro tok htok
  rw [handle_exchange_ok o items params t hp hx, List.mem_singleton] at htok
  subst htok
  cases hsc : t.scope with
  | none =>
    have hfall : scope_fallback t params.scope
        = { t with scope := params.scope } := by
      simp [scope_fallback, hsc]
    rw [hfall]
    exact ⟨rfl, rfl, rfl, rfl, rfl, Or.inr ⟨rfl, rfl⟩⟩
  | some sc =>
    have hfall : scope_fallback t params.scope = t := by
      simp [scope_fallback, hsc]
    rw [hfall]
    exact ⟨rfl, rfl, rfl, rfl, rfl, Or.inl rfl⟩

/-- Witness for C6: the token delivered for `sampleToken` agrees with it on
`access_token`. -/
theorem token_unchanged_witness :
    (scope_fallback sampleToken none).access_token
      = sampleToken.access_token :=
  (token_unchanged_except_scope okEngine
    [("code", "XYZ"), ("state", "abc123")]
    { code := "XYZ", state := "abc123", scope := none }
    sampleToken rfl rfl (scope_fallback sampleToken none)
    (List.Mem.head _)).1

/-- C7: the deserialized `TokenResponse`'s `extras` holds exactly the
top-level fields of the provider's JSON object whose key is none of
`access_token`, `token_type`, `expires_in`, `refresh_token`, `scope`, with
each value preserved under its key. -/
theorem extras_preserve_unrecognized_fields (fields : List (String × Json))
    (tr : TokenResponse) (h : TokenResponse.deserialize fields = .ok tr)
    (k : String) (v : Json) :
    (k, v) ∈ tr.extras
      ↔ ((k, v) ∈ fields ∧ ¬ k ∈ TokenResponse.namedFields) := by
  rw [deserialize_extras fields tr h]
  simp [List.mem_filter]

/-- Witness for C7: a provider-specific field `athlete_id` survives into
`extras` with its value intact. -/
theorem extras_preserve_witness :
    ("athlete_id", Json.num 42) ∈
      ({ access_token := "tok", token_type := "bearer", expires_in := none,
         refresh_token := none, scope := none,
         extras := [("athlete_id", Json.num 42)] } : TokenResponse).extras :=
  (extras_preserve_unrecognized_fields
      [("access_token", Json.str "tok"), ("token_type", Json.str "bearer"),
        ("athlete_id", Json.num 42)]
      { access_token := "tok", token_type := "bearer", expires_in := none,
        refresh_token := none, scope := none,
        extras := [("athlete_id", Json.num 42)] }
      rfl "athlete_id" (Json.num 42)).mpr
    ⟨List.Mem.tail _ (List.Mem.tail _ (List.Mem.head _)), by decide⟩

/-- C8: `refresh` is a pure passthrough: it wraps the string in a
`RefreshToken` request and returns `Adapter::exchange_code`'s result
directly, and — taking no `Cookies` argument — it leaves the per-user-agent
jar untouched and performs no cookie operation. -/
theorem refresh_is_pure_passthrough {ε ρ : Type} (o : OAuth2 ε ρ)
    (refresh_token : String) (jar : CookieJar) :
    o.refresh refresh_token
        = o.adapter.exchange_code o.config
            (TokenRequest.RefreshToken refresh_token)
    ∧ (o.refreshWithJar refresh_token jar).1 = o.refresh refresh_token
    ∧ (o.refreshWithJar refresh_token jar).2.1 = jar
    ∧ (o.refreshWithJar refresh_token jar).2.2 = [] :=
  ⟨rfl, rfl, rfl, rfl⟩

/-- C9: on adapter success, `get_redirect` stores the returned state value
in the private state cookie and returns a redirect to the returned URI; on
adapter failure, the error is propagated unchanged and the jar is
untouched. -/
theorem login_redirect_persists_state_or_propagates {ε ρ : Type}
    (o : OAuth2 ε ρ) (jar : CookieJar) (scopes : List String) :
    (∀ uri st, o.adapter.authorization_uri o.config scopes = .ok (uri, st) →
        o.get_redirect jar scopes =
          (.ok { uri := uri }, { stateCookie := some st },
            [CookieOp.addPrivate STATE_COOKIE_NAME st]))
    ∧ (∀ e, o.adapter.authorization_uri o.config scopes = .error e →
        o.get_redirect jar scopes = (.error e, jar, [])) := by
  constructor
  · intro uri st hok
    simp only [OAuth2.get_redirect, hok]
  · intro e herr
    simp only [OAuth2.get_redirect, herr]

/-- Witness for C9: the successful adapter stores `abc123` and redirects. -/
theorem login_redirect_witness :
    okEngine.get_redirect ⟨none⟩ ["read", "write"] =
      (.ok { uri := "https://provider/auth?response_type=code&state=abc123" },
        { stateCookie := some "abc123" },
        [CookieOp.addPrivate STATE_COOKIE_NAME "abc123"]) :=
  (login_redirect_persists_state_or_propagates okEngine ⟨none⟩
    ["read", "write"]).1
    "https://provider/auth?response_type=code&state=abc123" "abc123" rfl

/-- C10: on a matching state, the stored state is removed before the
exchange is attempted, so a failed exchange still consumes it: the first
invocation rejects with 400 but leaves the jar empty (having performed the
removal and exactly the one exchange call), and replaying the identical
callback URL is rejected as a state mismatch with no exchange call. -/
theorem failed_exchange_still_consumes_state {ε ρ : Type} (o : OAuth2 ε ρ)
    (items : List (String × String)) (params : CallbackQuery) (e : ε)
    (hp : CallbackQuery.from_form items false = .ok params)
    (hx : o.adapter.exchange_code o.config
        (TokenRequest.AuthorizationCode params.code) = .error e) :
    (o.handle (some items) ⟨some params.state⟩).outcome
        = .failure badRequestStatus
    ∧ (o.handle (some items) ⟨some params.state⟩).jar = ⟨none⟩
    ∧ CookieOp.removeCookie STATE_COOKIE_NAME
        ∈ (o.handle (some items) ⟨some params.state⟩).cookieOps
    ∧ (o.handle (some items) ⟨some params.state⟩).exchangeCalls
        = [TokenRequest.AuthorizationCode params.code]
    ∧ (o.handle (some items)
          ((o.handle (some items) ⟨some params.state⟩).jar)).outcome
        = .failure badRequestStatus
    ∧ (o.handle (some items)
          ((o.handle (some items) ⟨some params.state⟩).jar)).exchangeCalls
        = [] := by
  have h1 := handle_exchange_error o items params e hp hx
  have hjar : (o.handle (some items) ⟨some params.state⟩).jar = ⟨none⟩ := by
    rw [h1]
  rw [hjar, h1, handle_no_cookie o items params hp]
  exact ⟨rfl, rfl, List.Mem.tail _ (List.Mem.head _), rfl, rfl, rfl⟩

/-- Witness for C10: with a failing adapter, the originally valid callback
consumes the state, and its replay makes no exchange call. -/
theorem failed_exchange_consumes_witness :
    (errEngine.handle (some [("code", "XYZ"), ("state", "abc123")])
        ((errEngine.handle (some [("code", "XYZ"), ("state", "abc123")])
          ⟨some "abc123"⟩).jar)).exchangeCalls = [] :=
  (failed_exchange_still_consumes_state errEngine
    [("code", "XYZ"), ("state", "abc123")]
    { code := "XYZ", state := "abc123", scope := none } () rfl
    rfl).2.2.2.2.2

end RocketOAuth2
